import Mathlib

/-
  Verification of the taskvox campaign-dispatch and webhook-reconciliation
  subsystem, shallowly embedded from:
    app/models.py                      (ORM data model)
    app/routers/plivo_webhooks.py      (telephony hangup webhook)
    app/routers/elevenlabs_webhooks.py (voice-AI completion webhook)
    app/routers/campaigns.py           (campaign creation and dispatch)
  Databases are lists of records, queries are filters, and the commit of an
  ORM update replaces the row with the same primary key.  Behavior that in
  Python is an exception caught by a handler is modeled with Except.
-/

namespace Taskvox

/-! ## Python-level string helpers, embedded structurally so they evaluate -/

/-- Whitespace stripped by the Python str.strip method (ASCII subset). -/
def isPyWhitespace (c : Char) : Bool :=
  c = ' ' || c = '\t' || c = '\n' || c = '\r' || c = Char.ofNat 11 || c = Char.ofNat 12

/-- Embedding of the Python str.strip method with no argument. -/
def pyStrip (s : String) : String :=
  String.mk (((s.data.dropWhile isPyWhitespace).reverse.dropWhile isPyWhitespace).reverse)

/-- Splitting of a character list at every occurrence of the separator. -/
def splitChars (sep : Char) : List Char → List (List Char)
  | [] => [[]]
  | c :: cs =>
    let r := splitChars sep cs
    if c = sep then [] :: r
    else
      match r with
      | g :: gs => (c :: g) :: gs
      | [] => [[c]]

/-- Embedding of the Python str.split method for a one-character separator. -/
def pySplit (sep : Char) (s : String) : List String :=
  (splitChars sep s.data).map String.mk

/-- Decides whether one character list is a prefix of another. -/
def charsStartWith : List Char → List Char → Bool
  | [], _ => true
  | _ :: _, [] => false
  | p :: ps, c :: cs => p = c && charsStartWith ps cs

/-- Embedding of the Python str.startswith method. -/
def pyStartsWith (p s : String) : Bool := charsStartWith p.data s.data

/-- Embedding of the Python str.endswith method. -/
def pyEndsWith (p s : String) : Bool := charsStartWith p.data.reverse s.data.reverse

/-- Accumulating digit reader allowing single underscores between digits,
as the Python int constructor does. -/
def readDigits (acc : Nat) : List Char → Option Nat
  | [] => some acc
  | '_' :: c :: cs =>
    if c.isDigit then readDigits (acc * 10 + (c.toNat - 48)) cs else none
  | '_' :: [] => none
  | c :: cs =>
    if c.isDigit then readDigits (acc * 10 + (c.toNat - 48)) cs else none

/-- Digit-sequence parser for the Python int constructor: a nonempty run of
ASCII digits with single underscores allowed between digits. -/
def parseDigits : List Char → Option Nat
  | [] => none
  | '_' :: _ => none
  | c :: cs => if c.isDigit then readDigits (c.toNat - 48) cs else none

/-- Embedding of the Python int constructor on strings: surrounding
whitespace is stripped, an optional sign is honored, and anything else
(empty string, non-digits, floats) raises, here rendered as none. -/
def pythonInt (s : String) : Option Int :=
  match (pyStrip s).data with
  | '+' :: rest => (parseDigits rest).map Int.ofNat
  | '-' :: rest => (parseDigits rest).map (fun n => -(Int.ofNat n : Int))
  | rest => (parseDigits rest).map Int.ofNat

/-- Python truthiness of an optional string: None and the empty string are
falsy, every other string is truthy. -/
def truthyOpt (o : Option String) : Bool :=
  match o with
  | none => false
  | some s => s ≠ ""

/-- Embedding of the Python format specifier 02d on a natural number. -/
def pyFmt02 (n : Nat) : String :=
  if n < 10 then "0" ++ toString n else toString n

/-- Joining of a string list with a separator, as str.join does. -/
def joinWith (sep : String) : List String → String
  | [] => ""
  | x :: xs => xs.foldl (fun acc y => acc ++ sep ++ y) x

/-! ## Data model, from app/models.py -/

/-- Row of the users table (app/models.py, class User); only the fields the
verified routes read are carried. -/
structure User where
  id : Nat
  voiceApiKey : Option String
  isActive : Bool
  deriving Repr, DecidableEq

/-- Row of the agents table (app/models.py, class Agent). -/
structure Agent where
  id : Nat
  userId : Nat
  externalAgentId : Option String
  name : String
  isActive : Bool
  deriving Repr, DecidableEq

/-- Row of the campaigns table (app/models.py, class Campaign); counters
default to zero and status defaults to pending on insert. -/
structure Campaign where
  id : Nat
  userId : Nat
  agentId : Nat
  name : String
  status : String
  totalContacts : Nat
  completedCalls : Nat
  successfulCalls : Nat
  failedCalls : Nat
  createdAt : Nat
  deriving Repr, DecidableEq

/-- Row of the conversations table (app/models.py, class Conversation).
The mapped columns are exactly those of models.py lines 68 to 83: there is
an external_conversation_id column but no external_call_id column and no
notes column.  createdAt abstracts the insertion timestamp: a larger value
means created later. -/
structure Conversation where
  id : Nat
  userId : Nat
  agentId : Nat
  campaignId : Option Nat
  externalConversationId : Option String
  phoneNumber : Option String
  contactName : Option String
  status : Option String
  durationSeconds : Option Int
  transcript : Option String
  cost : Option String
  createdAt : Nat
  deriving Repr, DecidableEq

/-- Result of an ORM query ordering by created_at descending and taking the
first row: the row with the greatest createdAt, earliest listed on ties. -/
def mostRecent : List Conversation → Option Conversation
  | [] => none
  | c :: cs => some (cs.foldl (fun best x => if best.createdAt < x.createdAt then x else best) c)

/-- Commit of an ORM update: the row with the matching primary key is
replaced by the updated record. -/
def updateConv (db : List Conversation) (c : Conversation) : List Conversation :=
  db.map (fun x => if x.id = c.id then c else x)

/-! ## Telephony hangup webhook, from app/routers/plivo_webhooks.py -/

/-- Form fields of the hangup webhook (CallUUID, HangupCause, Duration, To);
a field absent from the form reads as none, matching form_data.get. -/
structure HangupForm where
  callUUID : Option String
  hangupCause : Option String
  duration : Option String
  toNumber : Option String
  deriving Repr, DecidableEq

/-- Response of the hangup route: the success body, or the error body built
by the blanket except clause. -/
inductive PlivoResult where
  | success
  | error (msg : String)
  deriving Repr, DecidableEq

/-- Message of the AttributeError raised when the handler evaluates
models.Conversation.external_call_id, an attribute the Conversation model
of app/models.py does not define. -/
def externalCallIdAttrError : String :=
  "AttributeError: type object Conversation has no attribute external_call_id"

/-- Status classification of plivo_webhooks.py lines 43 to 46. -/
def classifyHangupCause (cause : String) : String :=
  if cause = "NORMAL_CLEARING" || cause = "USER_BUSY" then "completed" else "failed"

/-- Conversation statuses the fallback lookup of plivo_webhooks.py line 37
accepts. -/
def plivoOpenStatus (c : Conversation) : Bool :=
  c.status == some "in_progress" || c.status == some "connected" || c.status == some "initiating"

/-- Lookup portion of plivo_hangup_handler (lines 26 to 39).  When CallUUID
is truthy the source first runs a query filtering on the nonexistent column
Conversation.external_call_id, which raises AttributeError while the filter
expression is built; the fallback by phone number and open status is only
reached when CallUUID is absent or empty. -/
def plivoMatchedConversation (form : HangupForm) (db : List Conversation) :
    Except String (Option Conversation) :=
  if truthyOpt form.callUUID then
    Except.error externalCallIdAttrError
  else if truthyOpt form.toNumber then
    Except.ok (mostRecent (db.filter (fun c =>
      c.phoneNumber == form.toNumber && plivoOpenStatus c)))
  else
    Except.ok none

/-- Update applied to a matched conversation (plivo_webhooks.py lines 41 to
52): status from the hangup cause, duration from int(Duration) with zero on
a parse failure; the form defaults are NORMAL_CLEARING and the string 0. -/
def plivoUpdatedConversation (form : HangupForm) (c : Conversation) : Conversation :=
  { c with
    status := some (classifyHangupCause (form.hangupCause.getD "NORMAL_CLEARING")),
    durationSeconds := some ((pythonInt (form.duration.getD "0")).getD 0) }

/-- Embedding of plivo_hangup_handler: any exception in the try block is
caught and the error body returned with the database untouched; with no
match the success body is returned and nothing is modified. -/
def plivo_hangup_handler (form : HangupForm) (db : List Conversation) :
    PlivoResult × List Conversation :=
  match plivoMatchedConversation form db with
  | Except.error e => (PlivoResult.error e, db)
  | Except.ok none => (PlivoResult.success, db)
  | Except.ok (some c) => (PlivoResult.success, updateConv db (plivoUpdatedConversation form c))

/-! ## Voice-AI completion webhook, from app/routers/elevenlabs_webhooks.py -/

/-- One element of the transcript array of the completion payload; absent
keys read as none and the handler applies the same defaults the Python get
calls do (unknown, empty message, zero seconds). -/
structure TranscriptTurn where
  role : Option String
  message : Option String
  timeInCallSecs : Option Nat
  deriving Repr, DecidableEq

/-- Embedding of build_transcript_text (elevenlabs_webhooks.py lines 112 to
132): one line per turn, minutes and seconds through the 02d format, the
Agent label exactly when the role equals agent and Customer otherwise, lines
joined by newlines in the original order. -/
def build_transcript_text (transcript : List TranscriptTurn) : String :=
  joinWith "\n" (transcript.map (fun turn =>
    let role := turn.role.getD "unknown"
    let message := turn.message.getD ""
    let t := turn.timeInCallSecs.getD 0
    let timeStr := pyFmt02 (t / 60) ++ ":" ++ pyFmt02 (t % 60)
    let speaker := if role = "agent" then "Agent" else "Customer"
    "[" ++ timeStr ++ "] " ++ speaker ++ ": " ++ message))

/-- Fields handle_call_completion reads out of the data block of the
post_call_transcription payload (lines 57 to 68). -/
structure CompletionData where
  conversationId : Option String
  agentId : Option String
  transcript : List TranscriptTurn
  callDurationSecs : Option Nat
  callSuccessful : Option String
  transcriptSummary : Option String
  deriving Repr, DecidableEq

/-- Exact-match lookup of handle_call_completion (lines 74 to 76).  The
filter evaluates models.Conversation.external_call_id, but the Conversation
model of app/models.py defines no such attribute (its provider-id column is
external_conversation_id), so building the query raises AttributeError. -/
def conversationByExternalCallId (db : List Conversation) (cid : Option String) :
    Except String (Option Conversation) :=
  Except.error externalCallIdAttrError

/-- Fallback lookup of handle_call_completion (lines 78 to 85): join with
the agents table on the agent relationship, filter on the provider-assigned
agent id and an in_progress or connected status, most recent first. -/
def completionFallbackMatch (agents : List Agent) (agentId : Option String)
    (db : List Conversation) : Option Conversation :=
  mostRecent (db.filter (fun c =>
    agents.any (fun a => a.id == c.agentId && a.externalAgentId == agentId) &&
      (c.status == some "in_progress" || c.status == some "connected")))

/-- Update the match branch of handle_call_completion writes (lines 87 to
101).  The assignments to external_call_id and notes set attributes that are
not mapped columns of the Conversation model, so they persist nothing and
the stored row is unchanged by them. -/
def completionUpdatedConversation (d : CompletionData) (c : Conversation) : Conversation :=
  { c with
    status := some (if d.callSuccessful.getD "unknown" = "success" then "completed" else "failed"),
    durationSeconds := some (Int.ofNat (d.callDurationSecs.getD 0)),
    transcript := some (build_transcript_text d.transcript) }

/-- Body of handle_call_completion inside its try block. -/
def handleCallCompletionTry (d : CompletionData) (agents : List Agent)
    (db : List Conversation) : Except String (List Conversation) := do
  let exact ← conversationByExternalCallId db d.conversationId
  let conv? :=
    match exact with
    | some c => some c
    | none => completionFallbackMatch agents d.agentId db
  match conv? with
  | some c => pure (updateConv db (completionUpdatedConversation d c))
  | none => pure db

/-- Embedding of handle_call_completion (lines 54 to 110): any exception in
the try block, including the AttributeError of the exact-match query, is
caught and logged, leaving the database as it was. -/
def handle_call_completion (d : CompletionData) (agents : List Agent)
    (db : List Conversation) : List Conversation :=
  match handleCallCompletionTry d agents db with
  | Except.ok db2 => db2
  | Except.error _ => db

/-- Parsed webhook payload: the event type plus the data block. -/
structure WebhookPayload where
  eventType : Option String
  data : CompletionData
  deriving Repr, DecidableEq

/-- Response of the webhook route: the 200 success body, or an HTTPException
with a status code and detail. -/
inductive WebhookResponse where
  | ok
  | httpError (code : Nat) (detail : String)
  deriving Repr, DecidableEq

/-- Embedding of elevenlabs_webhook_handler (lines 17 to 52).  The parsed
argument stands for the result of json.loads on the request body, none when
that raises JSONDecodeError.  A missing or empty signature header raises
HTTPException 401 inside the try block, which the blanket except catches and
re-raises as a 500, so the route only checks that the header is present; the
commented-out validate_signature call is never made, hence the response does
not depend on the content of the header. -/
def elevenlabs_webhook_handler (sigHeader : Option String)
    (parsed : Option WebhookPayload) (agents : List Agent)
    (db : List Conversation) : WebhookResponse × List Conversation :=
  if ¬ truthyOpt sigHeader then
    (WebhookResponse.httpError 500 "401: Missing signature", db)
  else
    match parsed with
    | none => (WebhookResponse.httpError 400 "Invalid JSON", db)
    | some p =>
      if p.eventType = some "post_call_transcription" then
        (WebhookResponse.ok, handle_call_completion p.data agents db)
      else
        (WebhookResponse.ok, db)

/-- Embedding of validate_signature (lines 134 to 162), parameterized by the
HMAC-SHA256 hex digest, taken abstract, and the current UNIX time.  The
header is split on commas; the timestamp is the piece after the first equals
sign of a leading t= element, the signature is the second element when it
starts with v0=; a timestamp older than 30 minutes fails; otherwise the
digest of timestamp.body under the secret, prefixed with v0=, is compared
with the signature.  Any of the exceptions the source can raise while
indexing or int-parsing returns false through the except clause. -/
def validate_signature (hmacSha256Hex : String → String → String) (nowSecs : Int)
    (body : String) (signatureHeader : String) (secret : String) : Bool :=
  let headers := pySplit ',' signatureHeader
  let timestamp? : Option String :=
    match headers with
    | [] => none
    | h0 :: _ => if pyStartsWith "t=" h0 then (pySplit '=' h0).get? 1 else none
  let signature? : Option String :=
    match headers.get? 1 with
    | some h1 => if pyStartsWith "v0=" h1 then some h1 else none
    | none => none
  match timestamp?, signature? with
  | some ts, some sig =>
    (match pythonInt ts with
     | none => false
     | some t =>
       if t < nowSecs - 30 * 60 then false
       else
         let expected := "v0=" ++ hmacSha256Hex secret (ts ++ "." ++ body)
         sig = expected)
  | _, _ => false

/-! ## Campaign creation from an uploaded contact file, app/routers/campaigns.py -/

/-- One row of the parsed upload, as csv.DictReader hands it to the loop of
create_campaign_form: the raw phone_number cell (the claimed uploads carry
the phone_number column) and the raw name cell when the file has a name
column. -/
structure CsvRow where
  phone_number : String
  name : Option String
  deriving Repr, DecidableEq

/-- Row filter of create_campaign_form line 113: the stripped phone number
must be truthy and differ from the literal nan sentinel. -/
def validPhone (raw : String) : Bool :=
  pyStrip raw ≠ "" && pyStrip raw ≠ "nan"

/-- Contact name stored for a row (lines 111 and 119): the stripped name
cell when a name column exists, with an empty result stored as null. -/
def rowContactName (r : CsvRow) : Option String :=
  match r.name with
  | some nRaw => if pyStrip nRaw = "" then none else some (pyStrip nRaw)
  | none => none

/-- Conversation record inserted for one valid row (lines 114 to 121);
primary keys are handed out sequentially by the store and the insertion
index doubles as the created_at order. -/
def rowConversation (userId agentId campaignId convId : Nat) (r : CsvRow) : Conversation :=
  { id := convId
    userId := userId
    agentId := agentId
    campaignId := some campaignId
    externalConversationId := none
    phoneNumber := some (pyStrip r.phone_number)
    contactName := rowContactName r
    status := some "pending"
    durationSeconds := none
    transcript := none
    cost := none
    createdAt := convId }

/-- Conversations created by the row loop of create_campaign_form. -/
def campaignConversations (userId agentId campaignId baseConvId : Nat)
    (rows : List CsvRow) : List Conversation :=
  ((rows.filter (fun r => validPhone r.phone_number)).enum).map
    (fun p => rowConversation userId agentId campaignId (baseConvId + p.1) p.2)

/-- Outcome of create_campaign_form: the redirect target plus what was
persisted. -/
structure CreateCampaignResult where
  redirectUrl : String
  campaign : Option Campaign
  conversations : List Conversation
  deriving Repr, DecidableEq

/-- Embedding of create_campaign_form (campaigns.py lines 61 to 132).  The
filename must end in .csv, the agent must exist for the requesting user, and
the upload must carry the phone_number column, each failure redirecting with
an error before anything is persisted.  Then the Campaign row is committed
with status pending, the row loop inserts one pending Conversation per valid
row, total_contacts is set to the number processed, and the success redirect
reports that count. -/
def create_campaign_form (name : String) (agentId : Nat) (filename : String)
    (hasPhoneNumberColumn : Bool) (rows : List CsvRow) (userId : Nat)
    (agents : List Agent) (campaignId baseConvId : Nat) : CreateCampaignResult :=
  if ¬ pyEndsWith ".csv" filename then
    { redirectUrl := "/campaigns?error=File must be CSV", campaign := none, conversations := [] }
  else
    match agents.find? (fun a => a.id == agentId && a.userId == userId) with
    | none =>
      { redirectUrl := "/campaigns?error=Voice agent not found", campaign := none,
        conversations := [] }
    | some _ =>
      if ¬ hasPhoneNumberColumn then
        { redirectUrl := "/campaigns?error=CSV must contain phone_number column",
          campaign := none, conversations := [] }
      else
        let convs := campaignConversations userId agentId campaignId baseConvId rows
        { redirectUrl := "/campaigns?success=Voice campaign created with " ++
            toString convs.length ++ " contacts"
          campaign := some
            { id := campaignId, userId := userId, agentId := agentId, name := name,
              status := "pending", totalContacts := convs.length, completedCalls := 0,
              successfulCalls := 0, failedCalls := 0, createdAt := campaignId }
          conversations := convs }

/-! ## Campaign dispatch, launch_campaign of app/routers/campaigns.py -/

/-- Provider response to one make_single_call request: a 201 whose call
object carries conversation_id when present, a non-2xx or network error
result, or an exception escaping the client call. -/
inductive CallOutcome where
  | success (conversationId : Option String)
  | failure (err : String)
  | exception (msg : String)
  deriving Repr, DecidableEq

/-- Whether an outcome takes the success branch of the loop; a success
without a conversation_id key raises KeyError on the subscript and lands in
the except branch. -/
def outcomeSucceeds : CallOutcome → Bool
  | CallOutcome.success (some _) => true
  | CallOutcome.success none => false
  | CallOutcome.failure _ => false
  | CallOutcome.exception _ => false

/-- Call-initiation request issued to the provider for one conversation
(campaigns.py lines 339 to 347). -/
structure CallRequest where
  agentExternalId : String
  phoneNumber : Option String
  conversationId : Nat
  deriving Repr, DecidableEq

/-- State threaded through the dispatch loop.  conversations is the stored
table; requests and updates are observation logs of the requests issued and
the records written, recorded for specification only. -/
structure DispatchState where
  conversations : List Conversation
  requests : List CallRequest
  updates : List Conversation
  successfulCalls : Nat
  failedCalls : Nat
  deriving Repr, DecidableEq

/-- Record written for one dispatched conversation (lines 349 to 360): on
success the provider conversation id is stored and the status becomes
in_progress; on an error result, a missing conversation_id key, or an
exception, the status becomes failed. -/
def dispatchUpdatedConversation (outcome : CallOutcome) (c : Conversation) : Conversation :=
  match outcome with
  | CallOutcome.success (some cid) =>
    { c with externalConversationId := some cid, status := some "in_progress" }
  | _ => { c with status := some "failed" }

/-- Embedding of the per-contact loop of launch_campaign (lines 337 to 362):
every conversation of the batch is attempted in order, each iteration issues
one request, classifies the outcome, increments exactly one counter and
commits; an error or exception only marks that conversation failed and the
loop continues with the rest. -/
def dispatchLoop (agentExtId : String) (outcomes : Nat → CallOutcome) :
    List Conversation → DispatchState → DispatchState
  | [], st => st
  | c :: rest, st =>
    let req : CallRequest :=
      { agentExternalId := agentExtId, phoneNumber := c.phoneNumber, conversationId := c.id }
    let c2 := dispatchUpdatedConversation (outcomes c.id) c
    let st2 : DispatchState :=
      { conversations := updateConv st.conversations c2
        requests := st.requests ++ [req]
        updates := st.updates ++ [c2]
        successfulCalls := st.successfulCalls + (if outcomeSucceeds (outcomes c.id) then 1 else 0)
        failedCalls := st.failedCalls + (if outcomeSucceeds (outcomes c.id) then 0 else 1) }
    dispatchLoop agentExtId outcomes rest st2

/-- Batch launch_campaign dispatches (lines 321 to 323): the pending
conversations of the campaign, limited to 5 calls for testing. -/
def pendingBatch (campaignId : Nat) (convTable : List Conversation) : List Conversation :=
  (convTable.filter (fun c =>
    c.campaignId == some campaignId && c.status == some "pending")).take 5

/-- Successful result of launch_campaign: the final campaign row, the
conversations table after the loop, and the loop observations. -/
structure LaunchResult where
  campaign : Campaign
  conversations : List Conversation
  requests : List CallRequest
  updates : List Conversation
  successfulCalls : Nat
  failedCalls : Nat
  deriving Repr, DecidableEq

/-- Dispatch phase of launch_campaign (campaigns.py lines 328 to 372), run
once its preconditions have passed: the campaign is set running, the loop
dispatches the pending batch, and afterwards completed_calls,
successful_calls and failed_calls are set from the loop counters; the
status becomes completed when the counters reach the size of the fetched
batch, not total_contacts. -/
def launchDispatch (campaign : Campaign) (agent : Agent) (campaignId : Nat)
    (convTable : List Conversation) (outcomes : Nat → CallOutcome) : LaunchResult :=
  let batch := pendingBatch campaignId convTable
  let running := { campaign with status := "running" }
  let st := dispatchLoop (agent.externalAgentId.getD "") outcomes batch
    { conversations := convTable, requests := [], updates := [],
      successfulCalls := 0, failedCalls := 0 }
  let final := { running with
    completedCalls := st.successfulCalls + st.failedCalls
    successfulCalls := st.successfulCalls
    failedCalls := st.failedCalls
    status := if st.successfulCalls + st.failedCalls ≥ batch.length then
        "completed"
      else running.status }
  { campaign := final, conversations := st.conversations,
    requests := st.requests, updates := st.updates,
    successfulCalls := st.successfulCalls, failedCalls := st.failedCalls }

/-- Embedding of launch_campaign (campaigns.py lines 294 to 379).  The
campaign must belong to the requesting user and be pending, the user must
hold a provider key, the linked agent must carry a truthy external agent id,
and the batch must be nonempty, each failure raising an HTTPException; then
the dispatch phase runs. -/
def launch_campaign (campaignId : Nat) (user : User) (campaigns : List Campaign)
    (agents : List Agent) (convTable : List Conversation)
    (outcomes : Nat → CallOutcome) : Except (Nat × String) LaunchResult :=
  match campaigns.find? (fun cp => cp.id == campaignId && cp.userId == user.id) with
  | none => Except.error (404, "Voice campaign not found")
  | some campaign =>
    if campaign.status ≠ "pending" then
      Except.error (400, "Campaign can only be launched from pending status")
    else if ¬ truthyOpt user.voiceApiKey then
      Except.error (400, "Voice AI API key not configured")
    else
      match agents.find? (fun a => a.id == campaign.agentId) with
      | none => Except.error (400, "Voice agent not found or not linked to Voice AI service")
      | some agent =>
        if ¬ truthyOpt agent.externalAgentId then
          Except.error (400, "Voice agent not found or not linked to Voice AI service")
        else if (pendingBatch campaignId convTable).isEmpty then
          Except.error (400, "No contacts to call")
        else
          Except.ok (launchDispatch campaign agent campaignId convTable outcomes)

/-- Campaign query of the campaigns page (campaigns.py lines 42 to 44):
rows filtered to the requesting user (the descending order does not matter
to the ownership claim, so the stored order is kept). -/
def campaigns_page_campaigns (userId : Nat) (campaigns : List Campaign) : List Campaign :=
  campaigns.filter (fun c => c.userId == userId)

/-! ## Concrete fixtures used by witnesses and counterexamples -/

/-- Example user, identifier 1, holding a provider key. -/
def exUser : User := ⟨1, some "api_key", true⟩

/-- Example agent of user 1, linked to the provider agent agent_ext_1. -/
def exAgent : Agent := ⟨1, 1, some "agent_ext_1", "Agent One", true⟩

/-- Example pending campaign of user 1 with six uploaded contacts. -/
def exCampaign6 : Campaign := ⟨1, 1, 1, "Big Campaign", "pending", 6, 0, 0, 0, 1⟩

/-- Example pending conversation number i of campaign 1. -/
def exPendingConv (i : Nat) : Conversation :=
  ⟨i, 1, 1, some 1, none, some "+15550001", none, some "pending", none, none, none, i⟩

/-- Conversations table holding the six pending contacts of campaign 1. -/
def exTable6 : List Conversation :=
  [exPendingConv 1, exPendingConv 2, exPendingConv 3,
   exPendingConv 4, exPendingConv 5, exPendingConv 6]

/-- Provider oracle on which every call initiation succeeds. -/
def allSuccess : Nat → CallOutcome := fun _ => CallOutcome.success (some "prov_conv_1")

/-- Provider oracle on which the call for conversation 2 raises and every
other call succeeds. -/
def failOn2 : Nat → CallOutcome := fun n =>
  if n = 2 then CallOutcome.exception "boom" else CallOutcome.success (some "prov_conv_1")

/-- Initial dispatch state over the six-contact table. -/
def exInitState : DispatchState := ⟨exTable6, [], [], 0, 0⟩

/-- Hangup event reporting the end of the call of user 1 to +15550001; the
form carries no CallUUID, which the handler accepts. -/
def c4HangupEvent : HangupForm := ⟨none, some "NORMAL_CLEARING", some "30", some "+15550001"⟩

/-- Older open conversation: user 1 calling +15550001. -/
def c4ConvUser1 : Conversation :=
  ⟨1, 1, 1, none, some "prov_call_1", some "+15550001", none, some "in_progress",
   none, none, none, 10⟩

/-- Newer open conversation: a different tenant, user 2, calling the same
number +15550001. -/
def c4ConvUser2 : Conversation :=
  ⟨2, 2, 2, none, none, some "+15550001", none, some "in_progress", none, none, none, 20⟩

/-- Example upload rows: two valid phone numbers, one empty cell and one
nan sentinel. -/
def exRows : List CsvRow :=
  [⟨" +15550001 ", some " Alice "⟩, ⟨"", none⟩, ⟨"nan", some "Bob"⟩, ⟨"+15550002", none⟩]

/-- Example upload rows none of which carries a usable phone number. -/
def exBadRows : List CsvRow := [⟨"", none⟩, ⟨" nan ", some "Carol"⟩]

/-! ## Shared lemmas about the dispatch loop -/

theorem dispatchLoop_requests (a : String) (o : Nat → CallOutcome) (l : List Conversation) :
    ∀ st : DispatchState, (dispatchLoop a o l st).requests =
      st.requests ++ l.map (fun c =>
        { agentExternalId := a, phoneNumber := c.phoneNumber, conversationId := c.id }) := by
  induction l with
  | nil => intro st; simp [dispatchLoop]
  | cons c rest ih => intro st; simp [dispatchLoop, ih]

theorem dispatchLoop_updates (a : String) (o : Nat → CallOutcome) (l : List Conversation) :
    ∀ st : DispatchState, (dispatchLoop a o l st).updates =
      st.updates ++ l.map (fun c => dispatchUpdatedConversation (o c.id) c) := by
  induction l with
  | nil => intro st; simp [dispatchLoop]
  | cons c rest ih => intro st; simp [dispatchLoop, ih]

theorem dispatchLoop_successfulCalls (a : String) (o : Nat → CallOutcome) (l : List Conversation) :
    ∀ st : DispatchState, (dispatchLoop a o l st).successfulCalls =
      st.successfulCalls + (l.filter (fun c => outcomeSucceeds (o c.id))).length := by
  induction l with
  | nil => intro st; simp [dispatchLoop]
  | cons c rest ih =>
    intro st
    by_cases h : outcomeSucceeds (o c.id) <;>
      simp [dispatchLoop, ih, h, Nat.add_assoc, Nat.add_comm 1]

theorem dispatchLoop_failedCalls (a : String) (o : Nat → CallOutcome) (l : List Conversation) :
    ∀ st : DispatchState, (dispatchLoop a o l st).failedCalls =
      st.failedCalls + (l.filter (fun c => !(outcomeSucceeds (o c.id)))).length := by
  induction l with
  | nil => intro st; simp [dispatchLoop]
  | cons c rest ih =>
    intro st
    by_cases h : outcomeSucceeds (o c.id) <;>
      simp [dispatchLoop, ih, h, Nat.add_assoc, Nat.add_comm 1]

theorem length_filter_add_length_filter_not {α : Type} (p : α → Bool) (l : List α) :
    (l.filter p).length + (l.filter (fun a => !(p a))).length = l.length := by
  induction l with
  | nil => simp
  | cons x xs ih => by_cases h : p x <;> simp [h, ih] <;> omega

/-! ## The claims -/

/-- C1: the claim that a completion webhook matching a Conversation (by
stored external id, else by the agent-and-recency fallback) updates the
matched row to completed or failed with the reported duration FAILS on the
code: the exact-match query of handle_call_completion evaluates the
attribute Conversation.external_call_id, which the Conversation model of
app/models.py does not define (its column is external_conversation_id), so
the lookup raises AttributeError before the fallback is reached and the
except clause of handle_call_completion swallows it.  For every payload,
agents table and conversations table the handler leaves the database
exactly as it was. -/
theorem C1_completion_handler_never_updates (d : CompletionData) (agents : List Agent)
    (db : List Conversation) : handle_call_completion d agents db = db := rfl

/-- C3: for a hangup webhook with a truthy CallUUID, the exact-match query
on the nonexistent column Conversation.external_call_id raises
AttributeError, so the handler returns the error body with the database
untouched and the phone-number fallback claimed for webhooks with no
matching external call id is never reached (first conjunct).  The second
half of the claim does hold: when no conversation with the destination
number is in an open status, no row is modified and no exception escapes
the handler (second conjunct). -/
theorem C3_hangup_calluuid_aborts_before_fallback :
    (∀ (form : HangupForm) (db : List Conversation), truthyOpt form.callUUID = true →
      plivo_hangup_handler form db = (PlivoResult.error externalCallIdAttrError, db)) ∧
    (∀ (form : HangupForm) (db : List Conversation),
      (∀ c ∈ db, (c.phoneNumber == form.toNumber && plivoOpenStatus c) = false) →
      (plivo_hangup_handler form db).2 = db) := by
  constructor
  · intro form db h
    simp [plivo_hangup_handler, plivoMatchedConversation, h]
  · intro form db h
    by_cases hu : truthyOpt form.callUUID
    · simp [plivo_hangup_handler, plivoMatchedConversation, hu]
    · by_cases ht : truthyOpt form.toNumber
      · have hnil : db.filter (fun c => c.phoneNumber == form.toNumber && plivoOpenStatus c) = [] := by
          rw [List.filter_eq_nil_iff]
          intro c hc
          simp [h c hc]
        simp [plivo_hangup_handler, plivoMatchedConversation, hu, ht, hnil, mostRecent]
      · simp [plivo_hangup_handler, plivoMatchedConversation, hu, ht]

/-- Witness for C3: a concrete hangup form with CallUUID uuid-1 and an open
in_progress conversation with the destination number, on which the handler
returns the AttributeError body and modifies nothing. -/
theorem C3_witness :
    truthyOpt (HangupForm.mk (some "uuid-1") (some "NORMAL_CLEARING") (some "12")
      (some "+15550001")).callUUID = true ∧
    plivo_hangup_handler
      (HangupForm.mk (some "uuid-1") (some "NORMAL_CLEARING") (some "12") (some "+15550001"))
      [⟨1, 1, 1, none, none, some "+15550001", none, some "in_progress", none, none, none, 5⟩] =
    (PlivoResult.error externalCallIdAttrError,
      [⟨1, 1, 1, none, none, some "+15550001", none, some "in_progress", none, none, none, 5⟩]) :=
  ⟨by decide, C3_hangup_calluuid_aborts_before_fallback.1 _ _ (by decide)⟩

/-- C7: the rendering function does format the turns exactly as claimed,
one line per turn as [mm:ss] Speaker: message with two-digit zero padding,
Agent against Customer labels and newline joins in the original order
(first conjunct); but the claimed property that this text is STORED fails
on the code, because handle_call_completion raises AttributeError on its
exact-match query before reaching the transcript assignment: even for a
payload whose conversation id equals a stored external conversation id, the
matched row keeps a null transcript (second conjunct). -/
theorem C7_transcript_rendering_never_stored :
    build_transcript_text
      [⟨some "agent", some "Hello, how can I help you?", some 15⟩,
       ⟨some "user", some "Hi there", some 65⟩] =
      "[00:15] Agent: Hello, how can I help you?\n[01:05] Customer: Hi there" ∧
    handle_call_completion
      ⟨some "conv_1", some "agent_ext_1",
        [⟨some "agent", some "Hello, how can I help you?", some 15⟩], some 42,
        some "success", some "summary"⟩
      [⟨1, 1, some "agent_ext_1", "Agent One", true⟩]
      [⟨1, 1, 1, some 1, some "conv_1", some "+15550001", none, some "in_progress",
        none, none, none, 1⟩] =
      [⟨1, 1, 1, some 1, some "conv_1", some "+15550001", none, some "in_progress",
        none, none, none, 1⟩] :=
  ⟨by decide, rfl⟩

/-- C8: whenever the hangup handler matches a conversation, the update it
commits sets status completed exactly when the hangup cause (defaulting to
NORMAL_CLEARING) is NORMAL_CLEARING or USER_BUSY, sets status failed in
every other case, and sets duration_seconds to the reported Duration as an
integer, or to zero when it does not parse as one. -/
theorem C8_hangup_classification_and_duration (form : HangupForm)
    (db : List Conversation) (c : Conversation)
    (h : plivoMatchedConversation form db = Except.ok (some c)) :
    plivo_hangup_handler form db =
      (PlivoResult.success, updateConv db (plivoUpdatedConversation form c)) ∧
    ((plivoUpdatedConversation form c).status = some "completed" ↔
      (form.hangupCause.getD "NORMAL_CLEARING" = "NORMAL_CLEARING" ∨
       form.hangupCause.getD "NORMAL_CLEARING" = "USER_BUSY")) ∧
    ((plivoUpdatedConversation form c).status = some "completed" ∨
     (plivoUpdatedConversation form c).status = some "failed") ∧
    (∀ n : Int, pythonInt (form.duration.getD "0") = some n →
      (plivoUpdatedConversation form c).durationSeconds = some n) ∧
    (pythonInt (form.duration.getD "0") = none →
      (plivoUpdatedConversation form c).durationSeconds = some 0) := by
  refine ⟨?_, ?_, ?_, ?_, ?_⟩
  · simp [plivo_hangup_handler, h]
  · simp only [plivoUpdatedConversation, classifyHangupCause]
    split <;> rename_i hcond <;> simp_all
  · simp only [plivoUpdatedConversation, classifyHangupCause]
    split <;> simp
  · intro n hn
    simp [plivoUpdatedConversation, hn]
  · intro hn
    simp [plivoUpdatedConversation, hn]

/-- Witness for C8: a concrete form with cause USER_BUSY and Duration 42
matched by the fallback to an open conversation; the handler commits status
completed with duration 42. -/
theorem C8_witness :
    plivo_hangup_handler
      (HangupForm.mk none (some "USER_BUSY") (some "42") (some "+15550001"))
      [⟨1, 1, 1, none, none, some "+15550001", none, some "in_progress", none, none, none, 5⟩] =
      (PlivoResult.success, updateConv
        [⟨1, 1, 1, none, none, some "+15550001", none, some "in_progress", none, none, none, 5⟩]
        (plivoUpdatedConversation
          (HangupForm.mk none (some "USER_BUSY") (some "42") (some "+15550001"))
          ⟨1, 1, 1, none, none, some "+15550001", none, some "in_progress", none, none, none, 5⟩)) ∧
    (plivoUpdatedConversation
      (HangupForm.mk none (some "USER_BUSY") (some "42") (some "+15550001"))
      ⟨1, 1, 1, none, none, some "+15550001", none, some "in_progress", none, none, none, 5⟩).durationSeconds =
      some 42 :=
  ⟨(C8_hangup_classification_and_duration
      (HangupForm.mk none (some "USER_BUSY") (some "42") (some "+15550001"))
      [⟨1, 1, 1, none, none, some "+15550001", none, some "in_progress", none, none, none, 5⟩]
      ⟨1, 1, 1, none, none, some "+15550001", none, some "in_progress", none, none, none, 5⟩
      rfl).1,
   (C8_hangup_classification_and_duration
      (HangupForm.mk none (some "USER_BUSY") (some "42") (some "+15550001"))
      [⟨1, 1, 1, none, none, some "+15550001", none, some "in_progress", none, none, none, 5⟩]
      ⟨1, 1, 1, none, none, some "+15550001", none, some "in_progress", none, none, none, 5⟩
      rfl).2.2.2.1 42 (by decide)⟩

/-- C5: counterexample to the claim that the completion webhook is
authenticated by HMAC verification and that a bad signature is rejected
with a client error.  The header t=100,v0=bad fails validate_signature (the
expected digest under the abstract HMAC is v0=aa and the timestamp is
fresh), yet the route accepts the request with the 200 success body: the
validation call is commented out in the source, so signature validity is
never consulted. -/
theorem C5_counterexample :
    validate_signature (fun _ _ => "aa") 200 "x" "t=100,v0=bad" "secret" = false ∧
    elevenlabs_webhook_handler (some "t=100,v0=bad")
      (some ⟨some "post_call_transcription",
        ⟨some "conv_1", some "agent_ext_1", [], some 10, some "success", none⟩⟩)
      [exAgent] [c4ConvUser1] = (WebhookResponse.ok, [c4ConvUser1]) :=
  ⟨by decide, rfl⟩

/-- C5 amended: the route only requires the signature header to be present
and never verifies it.  Bad JSON is rejected with a 400 client error and no
state change (first conjunct); the response is completely independent of
the content of a nonempty signature header (second conjunct); a missing or
empty header is rejected through the blanket except clause as a 500, again
with no state change (third conjunct). -/
theorem C5_amended_no_signature_verification :
    (∀ (s : String), s ≠ "" → ∀ (agents : List Agent) (db : List Conversation),
      elevenlabs_webhook_handler (some s) none agents db =
        (WebhookResponse.httpError 400 "Invalid JSON", db)) ∧
    (∀ (s1 s2 : String), s1 ≠ "" → s2 ≠ "" →
      ∀ (p : Option WebhookPayload) (agents : List Agent) (db : List Conversation),
      elevenlabs_webhook_handler (some s1) p agents db =
        elevenlabs_webhook_handler (some s2) p agents db) ∧
    (∀ (p : Option WebhookPayload) (agents : List Agent) (db : List Conversation),
      elevenlabs_webhook_handler none p agents db =
        (WebhookResponse.httpError 500 "401: Missing signature", db)) := by
  refine ⟨?_, ?_, ?_⟩
  · intro s hs agents db
    simp [elevenlabs_webhook_handler, truthyOpt, hs]
  · intro s1 s2 h1 h2 p agents db
    simp [elevenlabs_webhook_handler, truthyOpt, h1, h2]
  · intro p agents db
    simp [elevenlabs_webhook_handler, truthyOpt]

/-- Witness for the amended C5: at concrete inputs, bad JSON under header
sig is a 400 with no state change, and the response under header other-sig
equals the response under header sig. -/
theorem C5_witness :
    elevenlabs_webhook_handler (some "sig") none [exAgent] [c4ConvUser1] =
      (WebhookResponse.httpError 400 "Invalid JSON", [c4ConvUser1]) ∧
    elevenlabs_webhook_handler (some "sig")
      (some ⟨some "post_call_transcription",
        ⟨some "conv_1", some "agent_ext_1", [], some 10, some "success", none⟩⟩)
      [exAgent] [c4ConvUser1] =
    elevenlabs_webhook_handler (some "other-sig")
      (some ⟨some "post_call_transcription",
        ⟨some "conv_1", some "agent_ext_1", [], some 10, some "success", none⟩⟩)
      [exAgent] [c4ConvUser1] :=
  ⟨C5_amended_no_signature_verification.1 "sig" (by decide) [exAgent] [c4ConvUser1],
   C5_amended_no_signature_verification.2.1 "sig" "other-sig" (by decide) (by decide) _
     [exAgent] [c4ConvUser1]⟩

/-- C4: counterexample to the claim that no cross-tenant write is possible.
Users 1 and 2 both have an open conversation to +15550001, user 1 older and
user 2 newer.  The hangup event for user 1 calls (destination +15550001,
the CallUUID field absent, which the handler accepts) is matched by the
phone-number fallback, which carries no user filter: the handler commits
status completed and duration 30 onto the conversation of user 2, a tenant
other than the one owning the referenced call, while the matching open
conversation of user 1 also satisfies the fallback filter. -/
theorem C4_counterexample :
    plivo_hangup_handler c4HangupEvent [c4ConvUser1, c4ConvUser2] =
      (PlivoResult.success,
       [c4ConvUser1,
        { c4ConvUser2 with status := some "completed", durationSeconds := some 30 }]) ∧
    c4ConvUser1.userId = 1 ∧ c4ConvUser2.userId = 2 ∧
    (c4ConvUser1.phoneNumber == c4HangupEvent.toNumber && plivoOpenStatus c4ConvUser1) = true := by
  decide

/-- C4 amended: the authenticated campaigns page restricts its Campaign
query to the requesting user id (first conjunct), but the hangup webhook
fallback is not tenant-scoped: filtering only by destination number and
open status, it can update the conversation of user 2 on an event whose
destination is also carried by an open conversation of user 1 (second
conjunct). -/
theorem C4_amended_webhook_not_tenant_scoped :
    (∀ (uid : Nat) (campaigns : List Campaign),
      ∀ c ∈ campaigns_page_campaigns uid campaigns, c.userId = uid) ∧
    ((plivo_hangup_handler c4HangupEvent [c4ConvUser1, c4ConvUser2]).2.map
        Conversation.userId = [1, 2] ∧
      (plivo_hangup_handler c4HangupEvent [c4ConvUser1, c4ConvUser2]).2.get? 1 =
        some { c4ConvUser2 with status := some "completed", durationSeconds := some 30 }) := by
  constructor
  · intro uid campaigns c hc
    have h := List.of_mem_filter hc
    simpa using h
  · constructor <;> decide

/-- Witness for the amended C4: the scoping conjunct applied to a concrete
campaigns table of user 7. -/
theorem C4_witness :
    (Campaign.mk 3 7 1 "Mine" "pending" 0 0 0 0 0).userId = 7 :=
  C4_amended_webhook_not_tenant_scoped.1 7 [Campaign.mk 3 7 1 "Mine" "pending" 0 0 0 0 0]
    (Campaign.mk 3 7 1 "Mine" "pending" 0 0 0 0 0) (by decide)

/-- C2: counterexample.  Campaign 1 has six pending conversations and
total_contacts six; every provider call succeeds.  The launch dispatches
only five requests (the query is limited to 5 calls for testing), one
conversation stays pending, and the final status is completed with
completed_calls five even though five is smaller than total_contacts six,
contradicting both the one-request-per-pending-conversation part and the
status-iff-total-contacts part of the claim. -/
theorem C2_counterexample :
    (launch_campaign 1 exUser [exCampaign6] [exAgent] exTable6 allSuccess).toOption.map
      (fun st => (st.campaign.status, st.campaign.completedCalls,
        st.campaign.totalContacts, st.requests.length,
        (st.conversations.filter (fun c => c.status == some "pending")).length)) =
      some ("completed", 5, 6, 5, 1) ∧ (5 : Nat) < 6 := by
  constructor
  · decide
  · decide

/-- C2 amended: under the launch preconditions (campaign of the requesting
user in pending status, provider key configured, linked agent with a truthy
external id, nonempty batch), the launch issues exactly one call-initiation
request per conversation of the dispatch batch, which is the first at most
5 pending conversations of the campaign; with p provider successes and f
failures over that batch, completed_calls equals p plus f, successful_calls
equals p and failed_calls equals f; and the final status is completed
whenever p plus f reaches the batch size, which always holds, so the
campaign ends completed even when total_contacts exceeds the batch. -/
theorem C2_amended_batch_limited_dispatch (campaignId : Nat) (user : User)
    (campaigns : List Campaign) (agents : List Agent) (convTable : List Conversation)
    (outcomes : Nat → CallOutcome) (campaign : Campaign) (agent : Agent)
    (hfind : campaigns.find? (fun cp => cp.id == campaignId && cp.userId == user.id) =
      some campaign)
    (hpending : campaign.status = "pending")
    (hkey : truthyOpt user.voiceApiKey = true)
    (hagent : agents.find? (fun a => a.id == campaign.agentId) = some agent)
    (hext : truthyOpt agent.externalAgentId = true)
    (hne : pendingBatch campaignId convTable ≠ []) :
    ∃ st, launch_campaign campaignId user campaigns agents convTable outcomes =
        Except.ok st ∧
      st.requests.map CallRequest.conversationId =
        (pendingBatch campaignId convTable).map Conversation.id ∧
      (pendingBatch campaignId convTable).length ≤ 5 ∧
      st.successfulCalls = ((pendingBatch campaignId convTable).filter
        (fun c => outcomeSucceeds (outcomes c.id))).length ∧
      st.failedCalls = ((pendingBatch campaignId convTable).filter
        (fun c => !(outcomeSucceeds (outcomes c.id)))).length ∧
      st.campaign.completedCalls = st.successfulCalls + st.failedCalls ∧
      st.campaign.successfulCalls = st.successfulCalls ∧
      st.campaign.failedCalls = st.failedCalls ∧
      st.campaign.status = "completed" := by
  have hempty : (pendingBatch campaignId convTable).isEmpty = false := by
    cases hpb : pendingBatch campaignId convTable with
    | nil => exact absurd hpb hne
    | cons x xs => rfl
  have hsum : ((pendingBatch campaignId convTable).filter
        (fun c => outcomeSucceeds (outcomes c.id))).length +
      ((pendingBatch campaignId convTable).filter
        (fun c => !(outcomeSucceeds (outcomes c.id)))).length =
      (pendingBatch campaignId convTable).length :=
    length_filter_add_length_filter_not _ _
  have hrun : launch_campaign campaignId user campaigns agents convTable outcomes =
      Except.ok (launchDispatch campaign agent campaignId convTable outcomes) := by
    simp only [launch_campaign, hfind, hpending, hkey]
    simp only [hagent]
    simp [hext, hempty]
  have hreq := dispatchLoop_requests (agent.externalAgentId.getD "") outcomes
    (pendingBatch campaignId convTable)
    ⟨convTable, [], [], 0, 0⟩
  have hsucc := dispatchLoop_successfulCalls (agent.externalAgentId.getD "") outcomes
    (pendingBatch campaignId convTable)
    ⟨convTable, [], [], 0, 0⟩
  have hfail := dispatchLoop_failedCalls (agent.externalAgentId.getD "") outcomes
    (pendingBatch campaignId convTable)
    ⟨convTable, [], [], 0, 0⟩
  refine ⟨launchDispatch campaign agent campaignId convTable outcomes, hrun,
    ?_, ?_, ?_, ?_, ?_, ?_, ?_, ?_⟩
  · simp only [launchDispatch]
    rw [hreq]
    simp [Function.comp]
  · simp only [pendingBatch]
    exact List.length_take_le 5 _
  · simp only [launchDispatch]
    rw [hsucc]
    simp
  · simp only [launchDispatch]
    rw [hfail]
    simp
  · simp only [launchDispatch]
  · simp only [launchDispatch]
  · simp only [launchDispatch]
  · simp only [launchDispatch]
    rw [hsucc, hfail]
    simp only [Nat.zero_add]
    rw [hsum]
    simp

/-- Witness for the amended C2: the six-contact campaign under the
all-success oracle; the launch succeeds and its final status is
completed. -/
theorem C2_witness :
    (launch_campaign 1 exUser [exCampaign6] [exAgent] exTable6 allSuccess).toOption.map
      (fun st => st.campaign.status) = some "completed" := by
  obtain ⟨st, hok, -, -, -, -, -, -, -, hstat⟩ :=
    C2_amended_batch_limited_dispatch 1 exUser [exCampaign6] [exAgent] exTable6 allSuccess
      exCampaign6 exAgent (by decide) (by decide) (by decide) (by decide) (by decide)
      (by decide)
  rw [hok]
  show some st.campaign.status = some "completed"
  rw [hstat]

/-- C9: for every outcome assignment, including ones where some calls fail
or raise, the dispatch loop issues exactly one request per conversation of
the batch, in order, and writes exactly one record per conversation (first
two conjuncts): an early failure never prevents the later conversations
from being attempted.  A conversation whose outcome is not a success is
marked failed and nothing else about it changes (third conjunct). -/
theorem C9_failure_does_not_abort_batch (a : String) (o : Nat → CallOutcome)
    (batch : List Conversation) (st : DispatchState) :
    (dispatchLoop a o batch st).requests = st.requests ++ batch.map (fun c =>
      { agentExternalId := a, phoneNumber := c.phoneNumber, conversationId := c.id }) ∧
    (dispatchLoop a o batch st).updates = st.updates ++ batch.map (fun c =>
      dispatchUpdatedConversation (o c.id) c) ∧
    (∀ c ∈ batch, outcomeSucceeds (o c.id) = false →
      dispatchUpdatedConversation (o c.id) c = { c with status := some "failed" }) := by
  refine ⟨dispatchLoop_requests a o batch st, dispatchLoop_updates a o batch st, ?_⟩
  intro c _ hfail
  cases ho : o c.id with
  | success cid =>
    cases cid with
    | none => rfl
    | some s =>
      rw [ho] at hfail
      simp [outcomeSucceeds] at hfail
  | failure e => rfl
  | exception m => rfl

/-- Witness for C9: a three-conversation batch on which the provider call
for conversation 2 raises; all three requests are still issued and the
record of conversation 2 is marked failed. -/
theorem C9_witness :
    (dispatchLoop "agent_ext_1" failOn2
      [exPendingConv 1, exPendingConv 2, exPendingConv 3] exInitState).requests.length = 3 ∧
    dispatchUpdatedConversation (failOn2 2) (exPendingConv 2) =
      { exPendingConv 2 with status := some "failed" } := by
  have h := C9_failure_does_not_abort_batch "agent_ext_1" failOn2
    [exPendingConv 1, exPendingConv 2, exPendingConv 3] exInitState
  constructor
  · rw [h.1]
    decide
  · exact h.2.2 (exPendingConv 2) (by decide) (by decide)

theorem mem_campaignConversations (userId agentId campaignId baseConvId : Nat)
    (rows : List CsvRow) (c : Conversation)
    (hc : c ∈ campaignConversations userId agentId campaignId baseConvId rows) :
    c.status = some "pending" ∧ c.campaignId = some campaignId ∧ c.userId = userId := by
  unfold campaignConversations at hc
  rw [List.mem_map] at hc
  obtain ⟨p, hp, rfl⟩ := hc
  exact ⟨rfl, rfl, rfl⟩

theorem launch_campaign_no_contacts (campaignId : Nat) (user : User) (agents : List Agent)
    (camp : Campaign) (agent : Agent) (outcomes : Nat → CallOutcome)
    (hid : camp.id = campaignId) (huser : camp.userId = user.id)
    (hstatus : camp.status = "pending")
    (hkey : truthyOpt user.voiceApiKey = true)
    (hagent : agents.find? (fun a => a.id == camp.agentId) = some agent)
    (hext : truthyOpt agent.externalAgentId = true) :
    launch_campaign campaignId user [camp] agents [] outcomes =
      Except.error (400, "No contacts to call") := by
  have hfind : ([camp].find? (fun cp => cp.id == campaignId && cp.userId == user.id)) =
      some camp := by
    simp [List.find?, hid, huser]
  simp only [launch_campaign, hfind, hstatus, hkey]
  simp only [hagent]
  simp [hext, pendingBatch]

/-- C6: for every upload carrying the phone_number column, with a csv
filename and an agent of the requesting user, campaign creation persists a
pending Campaign whose total_contacts equals the number of rows whose
stripped phone number is nonempty and differs from the nan sentinel, and
creates exactly that many Conversation rows, every one pending and attached
to the new campaign for the requesting user. -/
theorem C6_contact_ingestion_counts (name : String) (agentId : Nat) (filename : String)
    (rows : List CsvRow) (userId : Nat) (agents : List Agent)
    (campaignId baseConvId : Nat) (agent : Agent)
    (hcsv : pyEndsWith ".csv" filename = true)
    (hagent : agents.find? (fun a => a.id == agentId && a.userId == userId) = some agent) :
    ∃ camp,
      (create_campaign_form name agentId filename true rows userId agents campaignId
        baseConvId).campaign = some camp ∧
      camp.status = "pending" ∧
      camp.totalContacts = (rows.filter (fun r =>
        pyStrip r.phone_number ≠ "" && pyStrip r.phone_number ≠ "nan")).length ∧
      (create_campaign_form name agentId filename true rows userId agents campaignId
        baseConvId).conversations.length = (rows.filter (fun r =>
        pyStrip r.phone_number ≠ "" && pyStrip r.phone_number ≠ "nan")).length ∧
      (∀ c ∈ (create_campaign_form name agentId filename true rows userId agents campaignId
        baseConvId).conversations,
        c.status = some "pending" ∧ c.campaignId = some campaignId ∧ c.userId = userId) := by
  have hlen : (campaignConversations userId agentId campaignId baseConvId rows).length =
      (rows.filter (fun r =>
        pyStrip r.phone_number ≠ "" && pyStrip r.phone_number ≠ "nan")).length := by
    simp [campaignConversations, validPhone]
  simp only [create_campaign_form, hcsv, hagent]
  refine ⟨_, rfl, rfl, ?_, ?_, ?_⟩
  · simpa using hlen
  · simpa using hlen
  · intro c hc
    exact mem_campaignConversations userId agentId campaignId baseConvId rows c hc

/-- Witness for C6: a four-row upload with two usable numbers, an empty
cell and a nan cell creates a campaign with total_contacts two and two
pending conversations. -/
theorem C6_witness :
    (create_campaign_form "Camp" 1 "contacts.csv" true exRows 1 [exAgent] 1 10).campaign.map
      Campaign.totalContacts = some 2 ∧
    (create_campaign_form "Camp" 1 "contacts.csv" true exRows 1 [exAgent] 1 10).conversations.length = 2 := by
  obtain ⟨camp, hcamp, -, htot, hlen, -⟩ :=
    C6_contact_ingestion_counts "Camp" 1 "contacts.csv" exRows 1 [exAgent] 1 10 exAgent
      (by decide) (by decide)
  refine ⟨?_, ?_⟩
  · rw [hcamp]
    simp [htot]
    decide
  · rw [hlen]
    decide

/-- C10: an upload that carries the phone_number column but no usable
phone numbers still persists a Campaign: the result is a pending campaign
with total_contacts zero, no Conversation rows, and the success redirect
reporting zero contacts; launching that campaign can then never dispatch a
call, failing with the no-contacts error. -/
theorem C10_empty_upload_creates_undispatchable_campaign (name : String) (agentId : Nat)
    (filename : String) (rows : List CsvRow) (user : User) (agents : List Agent)
    (campaignId baseConvId : Nat) (agent : Agent)
    (hcsv : pyEndsWith ".csv" filename = true)
    (hagent : agents.find? (fun a => a.id == agentId && a.userId == user.id) = some agent)
    (hinvalid : ∀ r ∈ rows, validPhone r.phone_number = false)
    (hkey : truthyOpt user.voiceApiKey = true)
    (hagent2 : agents.find? (fun a => a.id == agentId) = some agent)
    (hext : truthyOpt agent.externalAgentId = true) :
    ∃ camp,
      (create_campaign_form name agentId filename true rows user.id agents campaignId
        baseConvId).campaign = some camp ∧
      camp.status = "pending" ∧ camp.totalContacts = 0 ∧
      (create_campaign_form name agentId filename true rows user.id agents campaignId
        baseConvId).conversations = [] ∧
      (create_campaign_form name agentId filename true rows user.id agents campaignId
        baseConvId).redirectUrl =
        "/campaigns?success=Voice campaign created with 0 contacts" ∧
      launch_campaign campaignId user [camp] agents [] (fun _ => CallOutcome.failure "down") =
        Except.error (400, "No contacts to call") := by
  have hfil : rows.filter (fun r => validPhone r.phone_number) = [] := by
    rw [List.filter_eq_nil_iff]
    intro r hr
    simp [hinvalid r hr]
  have hconvs : campaignConversations user.id agentId campaignId baseConvId rows = [] := by
    simp [campaignConversations, hfil]
  simp only [create_campaign_form, hcsv, hagent, hconvs]
  refine ⟨_, rfl, rfl, rfl, rfl, rfl, ?_⟩
  exact launch_campaign_no_contacts campaignId user agents _ agent _
    rfl rfl rfl hkey hagent2 hext

/-- Witness for C10: a two-row upload with only an empty cell and a nan
cell creates the zero-contact campaign and its launch fails with the
no-contacts error. -/
theorem C10_witness :
    (create_campaign_form "Empty" 1 "contacts.csv" true exBadRows 1 [exAgent] 1 10).redirectUrl =
      "/campaigns?success=Voice campaign created with 0 contacts" ∧
    (create_campaign_form "Empty" 1 "contacts.csv" true exBadRows 1 [exAgent] 1 10).conversations = [] := by
  obtain ⟨camp, -, -, -, hconvs, hurl, -⟩ :=
    C10_empty_upload_creates_undispatchable_campaign "Empty" 1 "contacts.csv" exBadRows
      exUser [exAgent] 1 10 exAgent (by decide) (by decide) (by decide) (by decide)
      (by decide) (by decide)
  exact ⟨hurl, hconvs⟩

end Taskvox
